import Mathlib

/-!
Verification development for `gate_control_touch.py` (skysingh/gate_controller).

The Python source is shallowly embedded: global mutable state becomes explicit
state records, device I/O becomes an explicit device-outcome parameter plus a
trace of performed operations, and timer callbacks become state-transition
functions.  Each definition mirrors the source function of the same name.
-/

namespace GateControl

/-! ## String helpers mirroring the Python primitives used by the source -/

/-- Python's whitespace test for `str.strip` (ASCII whitespace characters). -/
def isPySpace (c : Char) : Bool :=
  c = ' ' || c = '\t' || c = '\n' || c = '\r' || c = '\x0b' || c = '\x0c'

/-- Python's `str.strip()`: drop leading and trailing whitespace. -/
def pyStrip (s : String) : String :=
  String.mk (((s.toList.dropWhile isPySpace).reverse.dropWhile isPySpace).reverse)

/-- Whether `n` is a leading segment of `l`. -/
def leadsList : List Char → List Char → Bool
  | [], _ => true
  | _ :: _, [] => false
  | a :: as, b :: bs => a = b && leadsList as bs

/-- Whether `n` occurs contiguously inside `l`. -/
def infixInList (n : List Char) : List Char → Bool
  | [] => n.isEmpty
  | b :: bs => leadsList n (b :: bs) || infixInList n bs

/-- Python's substring containment test `needle in hay`. -/
def containsSub (needle hay : String) : Bool :=
  infixInList needle.toList hay.toList

/-- Helper for `splitOnChar`: accumulates the current chunk (reversed). -/
def splitCharAux (c : Char) : List Char → List Char → List String
  | [], acc => [String.mk acc.reverse]
  | x :: xs, acc =>
    if x = c then String.mk acc.reverse :: splitCharAux c xs []
    else splitCharAux c xs (x :: acc)

/-- Python's `s.split(c)` for a single-character separator. -/
def splitOnChar (c : Char) (s : String) : List String :=
  splitCharAux c s.toList []

/-- Python's `data.split('\n')` as used by `check_incoming_sms`. -/
def splitLines (s : String) : List String :=
  splitOnChar '\n' s

/-- Python's zero-padded `f"\x7bm:02d\x7d"` formatting used for minutes. -/
def pad2 (n : Nat) : String :=
  if n < 10 then "0" ++ toString n else toString n

/-! ## Configuration constants (source lines 32, 39-43, 58-59) -/

/-- Default gate phone number (`GATE_PHONE`). -/
def GATE_PHONE : String := "9084321957"

/-- The `COMMANDS` dict mapping command kind to SMS payload. -/
def COMMANDS : List (String × String) :=
  [("status", "*22#"), ("open", "1234#2#"), ("close", "1234#3#")]

/-- Lookup in `COMMANDS`, as `COMMANDS['open']` etc. -/
def commandPayload (k : String) : String :=
  (COMMANDS.lookup k).getD ""

/-- `MAX_LOG_LINES` (source line 59). -/
def MAX_LOG_LINES : Nat := 100

/-! ## Command Gateway: `send_sms` (source lines 165-188)

Device behaviour is an explicit parameter: the serial exchange either raises
after `k` of the performed operations or yields a response string.  The
outcome records the returned boolean, the value of the global `modem_ready`
flag after the call, the device operations performed, and the log lines
emitted. -/

/-- One serial-device operation. -/
inductive DevOp where
  | write (bytes : String)
  | read
  deriving DecidableEq, Repr

/-- Behaviour of the device during a `send_sms` call: either some operation
raises (after `k` operations completed) or the final read yields `r`. -/
inductive SendDev where
  | raisesAfter (k : Nat)
  | responds (r : String)
  deriving DecidableEq, Repr

/-- Result of a `send_sms` call in the embedding. -/
structure SendSmsOutcome where
  success : Bool
  readyAfter : Bool
  ops : List DevOp
  log : List String
  deriving DecidableEq, Repr

/-- The device operations `send_sms` performs when nothing raises
(source lines 173-179): re-assert text mode (write+read inside
`send_at_command_raw`), write the `AT+CMGS` command, write the payload
terminated by Ctrl-Z (0x1A), then read the buffered response. -/
def smsOps (phone message : String) : List DevOp :=
  [DevOp.write "AT+CMGF=1\r\n",
   DevOp.read,
   DevOp.write ("AT+CMGS=\"" ++ phone ++ "\"\r\n"),
   DevOp.write (message ++ String.mk [Char.ofNat 26]),
   DevOp.read]

/-- `send_sms(phone_number, message)` (source lines 165-188).  `ready` is the
global `modem_ready` flag on entry. -/
def send_sms (ready : Bool) (phone message : String) (dev : SendDev) :
    SendSmsOutcome :=
  if !ready then
    ⟨false, ready, [], ["SMS failed: Modem not ready"]⟩
  else
    match dev with
    | SendDev.raisesAfter k =>
      ⟨false, ready, (smsOps phone message).take k, ["SMS error"]⟩
    | SendDev.responds r =>
      if containsSub "OK" r || containsSub "+CMGS" r then
        ⟨true, ready, smsOps phone message, ["SMS sent: " ++ message]⟩
      else
        ⟨true, ready, smsOps phone message, ["SMS may have failed: " ++ r]⟩

/-! ## Command Gateway: `check_incoming_sms` (source lines 191-211) -/

/-- Behaviour of the device during a `check_incoming_sms` call: the read
raises, no bytes are waiting, or `data` is buffered. -/
inductive PollDev where
  | raises
  | idle
  | buffered (data : String)
  deriving DecidableEq, Repr

/-- Result of a `check_incoming_sms` call in the embedding. -/
structure PollOutcome where
  message : Option String
  readyAfter : Bool
  deriving DecidableEq, Repr

/-- The scan loop of `check_incoming_sms` (source lines 202-208): find the
first line containing `+CMT:` that is followed by a line whose strip is
non-empty, and return that stripped following line. -/
def findCmt : List String → Option String
  | [] => none
  | l1 :: rest =>
    match rest with
    | [] => none
    | l2 :: _ =>
      if containsSub "+CMT:" l1 && !(pyStrip l2 = "") then some (pyStrip l2)
      else findCmt rest

/-- `check_incoming_sms()` (source lines 191-211).  `ready` is the global
`modem_ready` flag; `isOpen` models `modem and modem.is_open`. -/
def check_incoming_sms (ready isOpen : Bool) (dev : PollDev) : PollOutcome :=
  if !(ready && isOpen) then
    ⟨none, ready⟩
  else
    match dev with
    | PollDev.raises => ⟨none, ready⟩
    | PollDev.idle => ⟨none, ready⟩
    | PollDev.buffered data =>
      if containsSub "+CMT:" data then ⟨findCmt (splitLines data), ready⟩
      else ⟨none, ready⟩

/-! ## Gate state machine: momentary open (source lines 251-262 and 333-354)

The globals `momentary_active`, `momentary_countdown`, `gate_status_text`
become a state record.  The outcome of the `send_sms` call inside each
handler is an explicit boolean parameter; each transition returns the new
state together with the list of SMS payloads whose send was attempted. -/

/-- The mutable globals touched by `cmd_momentary` / `momentary_timer`. -/
structure MomState where
  momentary_active : Bool
  momentary_countdown : Int
  gate_status_text : String
  deriving DecidableEq, Repr

/-- `cmd_momentary()` (source lines 251-262).  `sendOk` is the boolean
returned by the inner `send_sms` call when one is attempted. -/
def cmd_momentary (sendOk : Bool) (s : MomState) : MomState × List String :=
  if !s.momentary_active then
    if sendOk then
      (⟨true, 60, "Momentary - closing in 60s"⟩, [commandPayload "open"])
    else
      (⟨s.momentary_active, s.momentary_countdown, "Failed to send open"⟩,
       [commandPayload "open"])
  else
    (s, [])

/-- The 1-second `momentary_timer()` tick (source lines 333-354). -/
def momentary_timer (sendOk : Bool) (s : MomState) : MomState × List String :=
  if s.momentary_active then
    let c := s.momentary_countdown - 1
    if c ≤ 0 then
      (⟨false, c,
        if sendOk then "Gate closed (momentary)" else "Failed to auto-close!"⟩,
       [commandPayload "close"])
    else
      (⟨s.momentary_active, c, s.gate_status_text⟩, [])
  else
    (s, [])

/-- Iterate `momentary_timer` for `k` one-second ticks, accumulating the
attempted SMS dispatches. -/
def iterTimer (sendOk : Bool) : Nat → MomState → MomState × List String
  | 0, s => (s, [])
  | k + 1, s =>
    let p1 := momentary_timer sendOk s
    let p2 := iterTimer sendOk k p1.1
    (p2.1, p1.2 ++ p2.2)

/-! ## Gate state machine: scheduled auto-close (source lines 356-370) -/

/-- A local wall-clock instant as `check_auto_close` observes it:
`date` abstracts `now.date()` as a day number. -/
structure LocalTime where
  date : Nat
  hour : Nat
  minute : Nat
  deriving DecidableEq, Repr

/-- The mutable globals touched by `check_auto_close`. -/
structure AutoState where
  auto_close_hour : Nat
  auto_close_minute : Nat
  last_auto_close_check : Option Nat
  gate_status_text : String
  deriving DecidableEq, Repr

/-- The 30-second `check_auto_close()` tick (source lines 356-370).  `now`
is the local time computed from UTC plus the timezone offset; `sendOk` is
the boolean returned by the inner `send_sms` call when one is attempted.
In the source, `last_auto_close_check = today` is executed before the
`send_sms` call; both effects land in the returned state here. -/
def check_auto_close (now : LocalTime) (sendOk : Bool) (s : AutoState) :
    AutoState × List String :=
  if now.hour = s.auto_close_hour && now.minute = s.auto_close_minute &&
      !(s.last_auto_close_check = some now.date) then
    (⟨s.auto_close_hour, s.auto_close_minute, some now.date,
      if sendOk then
        "Scheduled close (" ++ toString s.auto_close_hour ++ ":" ++
          pad2 s.auto_close_minute ++ ")"
      else "Scheduled close failed!"⟩,
     [commandPayload "close"])
  else
    (s, [])

/-- Run a sequence of 30-second auto-close ticks; each tick carries the
observed local time and the result the inner `send_sms` would return. -/
def runTicks : List (LocalTime × Bool) → AutoState → AutoState × List String
  | [], s => (s, [])
  | t :: ts, s =>
    let p1 := check_auto_close t.1 t.2 s
    let p2 := runTicks ts p1.1
    (p2.1, p1.2 ++ p2.2)

/-! ## Activity log (source lines 84-116)

The backing file becomes a list of stored lines (each without its trailing
newline); an absent file is `Option.none` where the distinction matters. -/

/-- Keep only the last `n` elements of a list (Python `lines[-n:]` for
`n ≥ 1`). -/
def lastN (n : Nat) (l : List String) : List String :=
  l.drop (l.length - n)

/-- `trim_log_file()` (source lines 97-106): rewrite the store to its last
`MAX_LOG_LINES` lines when over capacity. -/
def trim_log_file (store : List String) : List String :=
  if store.length > MAX_LOG_LINES then lastN MAX_LOG_LINES store else store

/-- The line format of `log_event` (source lines 86-87). -/
def format_log_line (timestamp event : String) : String :=
  "[" ++ timestamp ++ "] " ++ event

/-- `log_event(event)` (source lines 84-94): append the formatted line,
then trim. -/
def log_event (store : List String) (timestamp event : String) :
    List String :=
  trim_log_file (store ++ [format_log_line timestamp event])

/-- A sequence of `log_event` calls, oldest first. -/
def appendAll (store : List String) (es : List (String × String)) :
    List String :=
  es.foldl (fun l e => log_event l e.1 e.2) store

/-- `get_log_lines(count)` (source lines 109-116): `none` models an absent
log file (`FileNotFoundError`), `some lines` the stored lines.  Mirrors
Python's `lines[-count:]` (which is all of `lines` when `count = 0`),
stripping each line and reversing to most-recent-first. -/
def get_log_lines (count : Nat) (store : Option (List String)) :
    List String :=
  match store with
  | none => ["No log entries yet."]
  | some lines =>
    ((if count = 0 then lines else lastN count lines).map pyStrip).reverse

/-! ## Theorems about the claims -/

/-- C1: with the session ready and no device exception, `send_sms` reports
success when the response contains `OK` or the `+CMGS` send-confirmation
marker, and by the permissive policy every other response (marker-free or
even empty) is also reported as success; only the emitted log line
distinguishes the two cases. -/
theorem c1_send_sms_permissive_success (phone message r : String) :
    (send_sms true phone message (SendDev.responds r)).success = true ∧
    (send_sms true phone message (SendDev.responds r)).log =
      [if containsSub "OK" r || containsSub "+CMGS" r then
        "SMS sent: " ++ message
       else "SMS may have failed: " ++ r] := by
  rcases Bool.eq_false_or_eq_true
      (containsSub "OK" r || containsSub "+CMGS" r) with h | h <;>
    simp [send_sms, h]

/-- C4: `cmd_momentary` is idempotent while the momentary-open state is
active: with `momentary_active` true it dispatches nothing and leaves the
whole state unchanged, whatever the would-be send result. -/
theorem c4_momentary_idempotent (ok : Bool) (s : MomState)
    (h : s.momentary_active = true) :
    cmd_momentary ok s = (s, []) := by
  unfold cmd_momentary
  simp [h]

/-- Witness for C4 at a concrete active state. -/
theorem c4_momentary_idempotent_witness :
    cmd_momentary true ⟨true, 42, "Momentary - closing in 60s"⟩ =
      (⟨true, 42, "Momentary - closing in 60s"⟩, []) :=
  c4_momentary_idempotent true ⟨true, 42, "Momentary - closing in 60s"⟩ rfl

/-- C5: with the session not marked ready, `send_sms` returns `false`
immediately, performs no device operation at all, and only logs the
not-ready failure. -/
theorem c5_send_sms_not_ready (phone message : String) (dev : SendDev) :
    send_sms false phone message dev =
      ⟨false, false, [], ["SMS failed: Modem not ready"]⟩ := by
  rfl

/-- C6 counterexample: a device exception during a ready `send_sms` call is
reported as failure, yet the ready flag stays `true` — the session is not
degraded to not-ready as the claim states. -/
theorem c6_ready_not_degraded_counterexample :
    (send_sms true GATE_PHONE (commandPayload "close")
        (SendDev.raisesAfter 0)).success = false ∧
    (send_sms true GATE_PHONE (commandPayload "close")
        (SendDev.raisesAfter 0)).readyAfter = true := by
  constructor <;> rfl

/-- C6 amended: a device I/O error during `send_sms` or
`check_incoming_sms` is swallowed at the gateway boundary and reported
upward as `false` / `none` (the embedded functions are total, so nothing
propagates), but the ready flag is left exactly as it was — it is not
degraded to not-ready. -/
theorem c6_io_error_swallowed (ready isOpen : Bool) (phone message : String)
    (k : Nat) :
    (send_sms ready phone message (SendDev.raisesAfter k)).success = false ∧
    (send_sms ready phone message (SendDev.raisesAfter k)).readyAfter =
      ready ∧
    (check_incoming_sms ready isOpen PollDev.raises).message = none ∧
    (check_incoming_sms ready isOpen PollDev.raises).readyAfter = ready := by
  unfold send_sms check_incoming_sms
  cases ready <;> cases isOpen <;> simp

/-- A tick whose guard matches fires: the returned state records today as
the last auto-close date and exactly one close payload is dispatched. -/
theorem check_auto_close_fires (now : LocalTime) (ok : Bool) (s : AutoState)
    (h1 : now.hour = s.auto_close_hour)
    (h2 : now.minute = s.auto_close_minute)
    (h3 : s.last_auto_close_check ≠ some now.date) :
    check_auto_close now ok s =
      (⟨s.auto_close_hour, s.auto_close_minute, some now.date,
        if ok then
          "Scheduled close (" ++ toString s.auto_close_hour ++ ":" ++
            pad2 s.auto_close_minute ++ ")"
        else "Scheduled close failed!"⟩,
       [commandPayload "close"]) := by
  unfold check_auto_close
  simp [h1, h2, h3]

/-- A tick whose guard fails is a no-op: state unchanged, nothing
dispatched. -/
theorem check_auto_close_skips (now : LocalTime) (ok : Bool) (s : AutoState)
    (h : ¬(now.hour = s.auto_close_hour ∧ now.minute = s.auto_close_minute ∧
        s.last_auto_close_check ≠ some now.date)) :
    check_auto_close now ok s = (s, []) := by
  unfold check_auto_close
  split
  case isTrue hg =>
    have hg2 : (now.hour = s.auto_close_hour ∧
        now.minute = s.auto_close_minute) ∧
        ¬s.last_auto_close_check = some now.date := by simpa using hg
    exact absurd ⟨hg2.1.1, hg2.1.2, hg2.2⟩ h
  case isFalse => rfl

/-- Once `last_auto_close_check` equals a day, every further tick on that
day leaves the state untouched and dispatches nothing. -/
theorem runTicks_blocked : ∀ (ts : List (LocalTime × Bool)) (d : Nat)
    (s : AutoState), (∀ t ∈ ts, (t.1).date = d) →
    s.last_auto_close_check = some d →
    runTicks ts s = (s, [])
  | [], _, _, _, _ => rfl
  | t :: ts, d, s, hd, hs => by
    have hskip : check_auto_close t.1 t.2 s = (s, []) := by
      apply check_auto_close_skips
      rintro ⟨-, -, h3⟩
      exact h3 (by rw [hd t (by simp)]; exact hs)
    have ih := runTicks_blocked ts d s (fun x hx => hd x (by simp [hx])) hs
    simp [runTicks, hskip, ih]

/-- Over same-day ticks from a state that has not yet fired that day, a
matching tick makes the run dispatch exactly one close and record the
day. -/
theorem runTicks_fires_once : ∀ (ts : List (LocalTime × Bool)) (d : Nat)
    (s : AutoState), (∀ t ∈ ts, (t.1).date = d) →
    s.last_auto_close_check ≠ some d →
    (∃ t ∈ ts, (t.1).hour = s.auto_close_hour ∧
      (t.1).minute = s.auto_close_minute) →
    (runTicks ts s).2 = [commandPayload "close"] ∧
    (runTicks ts s).1.last_auto_close_check = some d
  | [], _, _, _, _, hmatch => by simp at hmatch
  | t :: ts, d, s, hd, hlast, hmatch => by
    by_cases hfire : (t.1).hour = s.auto_close_hour ∧
        (t.1).minute = s.auto_close_minute
    · have hdt : (t.1).date = d := hd t (by simp)
      have hf := check_auto_close_fires t.1 t.2 s hfire.1 hfire.2
        (by rw [hdt]; exact hlast)
      rw [hdt] at hf
      have hb := runTicks_blocked ts d (check_auto_close t.1 t.2 s).1
        (fun x hx => hd x (by simp [hx])) (by rw [hf])
      rw [hf] at hb
      simp [runTicks, hf, hb]
    · have hskip := check_auto_close_skips t.1 t.2 s
        (fun hg => hfire ⟨hg.1, hg.2.1⟩)
      obtain ⟨u, hu, hum⟩ := hmatch
      rcases List.mem_cons.mp hu with h | h
      · exact absurd ⟨by rw [← h]; exact hum.1, by rw [← h]; exact hum.2⟩
          hfire
      · have ih := runTicks_fires_once ts d s
          (fun x hx => hd x (by simp [hx])) hlast ⟨u, h, hum⟩
        simp [runTicks, hskip, ih.1, ih.2]

/-- C2: the scheduled auto-close fires at most once per calendar day.  A
single 30-second tick dispatches a close exactly when the local hour and
minute equal the configured time and `last_auto_close_check` differs from
today, and then records today; over any same-day tick sequence, a state
already marked for that day is a complete no-op, while an unmarked state
with a matching tick dispatches exactly one close and ends marked — so on
the next day (a different date, hence unmarked) the check can fire again
once. -/
theorem c2_auto_close_once_per_day (sAny s sBlocked : AutoState)
    (now : LocalTime) (ok : Bool) (ts : List (LocalTime × Bool)) (d : Nat)
    (hd : ∀ t ∈ ts, (t.1).date = d)
    (hblocked : sBlocked.last_auto_close_check = some d)
    (hlast : s.last_auto_close_check ≠ some d)
    (hmatch : ∃ t ∈ ts, (t.1).hour = s.auto_close_hour ∧
      (t.1).minute = s.auto_close_minute) :
    (check_auto_close now ok sAny).2 =
      (if now.hour = sAny.auto_close_hour ∧
          now.minute = sAny.auto_close_minute ∧
          sAny.last_auto_close_check ≠ some now.date then
        [commandPayload "close"]
       else []) ∧
    (check_auto_close now ok sAny).1.last_auto_close_check =
      (if now.hour = sAny.auto_close_hour ∧
          now.minute = sAny.auto_close_minute ∧
          sAny.last_auto_close_check ≠ some now.date then
        some now.date
       else sAny.last_auto_close_check) ∧
    runTicks ts sBlocked = (sBlocked, []) ∧
    (runTicks ts s).2 = [commandPayload "close"] ∧
    (runTicks ts s).1.last_auto_close_check = some d := by
  have honce := runTicks_fires_once ts d s hd hlast hmatch
  refine ⟨?_, ?_, runTicks_blocked ts d sBlocked hd hblocked, honce.1,
    honce.2⟩ <;>
    by_cases hg : now.hour = sAny.auto_close_hour ∧
      now.minute = sAny.auto_close_minute ∧
      sAny.last_auto_close_check ≠ some now.date
  · rw [check_auto_close_fires now ok sAny hg.1 hg.2.1 hg.2.2, if_pos hg]
  · rw [check_auto_close_skips now ok sAny hg, if_neg hg]
  · rw [check_auto_close_fires now ok sAny hg.1 hg.2.1 hg.2.2, if_pos hg]
  · rw [check_auto_close_skips now ok sAny hg, if_neg hg]

/-- Witness for C2 at hour 22, minute 0, with two matching ticks on day 5:
a generic tick obeys the guard characterization, the blocked state ignores
the whole day, and the unmarked state fires exactly once. -/
theorem c2_auto_close_once_per_day_witness :
    (check_auto_close ⟨5, 22, 0⟩ true ⟨22, 0, none, "Ready"⟩).2 =
      (if (22 : Nat) = 22 ∧ (0 : Nat) = 0 ∧
          (none : Option Nat) ≠ some 5 then
        [commandPayload "close"]
       else []) ∧
    (check_auto_close ⟨5, 22, 0⟩ true
        ⟨22, 0, none, "Ready"⟩).1.last_auto_close_check =
      (if (22 : Nat) = 22 ∧ (0 : Nat) = 0 ∧
          (none : Option Nat) ≠ some 5 then
        some 5
       else none) ∧
    runTicks [(⟨5, 22, 0⟩, true), (⟨5, 22, 0⟩, true)]
        ⟨22, 0, some 5, "Scheduled close (22:00)"⟩ =
      (⟨22, 0, some 5, "Scheduled close (22:00)"⟩, []) ∧
    (runTicks [(⟨5, 22, 0⟩, true), (⟨5, 22, 0⟩, true)]
        ⟨22, 0, none, "Ready"⟩).2 = [commandPayload "close"] ∧
    (runTicks [(⟨5, 22, 0⟩, true), (⟨5, 22, 0⟩, true)]
        ⟨22, 0, none, "Ready"⟩).1.last_auto_close_check = some 5 :=
  c2_auto_close_once_per_day ⟨22, 0, none, "Ready"⟩ ⟨22, 0, none, "Ready"⟩
    ⟨22, 0, some 5, "Scheduled close (22:00)"⟩ ⟨5, 22, 0⟩ true
    [(⟨5, 22, 0⟩, true), (⟨5, 22, 0⟩, true)] 5
    (by decide) (by decide) (by decide)
    ⟨(⟨5, 22, 0⟩, true), by decide, by decide, by decide⟩

/-- C10: a guard-matching tick records today in `last_auto_close_check` as
part of firing (in the source the assignment precedes the `send_sms`
call), so even when the close dispatch fails the day stays marked, the
status text reports the failure, and any later tick that same day
dispatches nothing — a failed scheduled close is never retried that
day. -/
theorem c10_failed_close_not_retried (s : AutoState) (now t : LocalTime)
    (ok2 : Bool)
    (h1 : now.hour = s.auto_close_hour)
    (h2 : now.minute = s.auto_close_minute)
    (h3 : s.last_auto_close_check ≠ some now.date)
    (ht : t.date = now.date) :
    (check_auto_close now false s).1.last_auto_close_check =
      some now.date ∧
    (check_auto_close now false s).1.gate_status_text =
      "Scheduled close failed!" ∧
    (check_auto_close now false s).2 = [commandPayload "close"] ∧
    check_auto_close t ok2 (check_auto_close now false s).1 =
      ((check_auto_close now false s).1, []) := by
  have hf := check_auto_close_fires now false s h1 h2 h3
  refine ⟨by rw [hf], by simp [hf], by rw [hf], ?_⟩
  apply check_auto_close_skips
  rintro ⟨-, -, hne⟩
  apply hne
  rw [hf, ht]

/-- Witness for C10: at 22:00 on day 5 with a failing send, the day is
marked, the failure is shown, and a later same-day tick is a no-op. -/
theorem c10_failed_close_not_retried_witness :
    (check_auto_close ⟨5, 22, 0⟩ false
        ⟨22, 0, none, "Ready"⟩).1.last_auto_close_check = some 5 ∧
    (check_auto_close ⟨5, 22, 0⟩ false
        ⟨22, 0, none, "Ready"⟩).1.gate_status_text =
      "Scheduled close failed!" ∧
    (check_auto_close ⟨5, 22, 0⟩ false ⟨22, 0, none, "Ready"⟩).2 =
      [commandPayload "close"] ∧
    check_auto_close ⟨5, 22, 0⟩ true
        (check_auto_close ⟨5, 22, 0⟩ false ⟨22, 0, none, "Ready"⟩).1 =
      ((check_auto_close ⟨5, 22, 0⟩ false ⟨22, 0, none, "Ready"⟩).1, []) :=
  c10_failed_close_not_retried ⟨22, 0, none, "Ready"⟩ ⟨5, 22, 0⟩ ⟨5, 22, 0⟩
    true (by decide) (by decide) (by decide) (by decide)

/-- While more ticks remain than the countdown needs, each 1-second tick
decrements the countdown by exactly one and dispatches nothing. -/
theorem iterTimer_active (ok : Bool) (st : String) : ∀ (k : Nat) (n : Int),
    (k : Int) < n →
    iterTimer ok k ⟨true, n, st⟩ = (⟨true, n - k, st⟩, [])
  | 0, n, _ => by simp [iterTimer]
  | k + 1, n, h => by
    have hk1 : ((k + 1 : Nat) : Int) = (k : Int) + 1 := by push_cast; ring
    rw [hk1] at h
    have hstep : momentary_timer ok ⟨true, n, st⟩ = (⟨true, n - 1, st⟩, []) := by
      unfold momentary_timer
      simp [show ¬(n - 1 ≤ 0) by omega]
    have ih := iterTimer_active ok st k (n - 1) (by omega)
    rw [iterTimer, hstep]
    simp [ih, hk1]
    ring

/-- Running the timer for exactly as many ticks as the countdown holds
expires it: the flag clears, the countdown ends at zero, exactly one close
is dispatched, and the status text reflects the dispatch result. -/
theorem iterTimer_expire (ok : Bool) (st : String) : ∀ (k : Nat),
    iterTimer ok (k + 1) ⟨true, (k : Int) + 1, st⟩ =
      (⟨false, 0,
        if ok then "Gate closed (momentary)" else "Failed to auto-close!"⟩,
       [commandPayload "close"])
  | 0 => by
    rw [iterTimer]
    simp [momentary_timer, iterTimer]
  | k + 1 => by
    have hk1 : ((k + 1 : Nat) : Int) = (k : Int) + 1 := by push_cast; ring
    have hstep : momentary_timer ok ⟨true, ((k + 1 : Nat) : Int) + 1, st⟩ =
        (⟨true, (k : Int) + 1, st⟩, []) := by
      unfold momentary_timer
      rw [hk1]
      simp [show ¬((k : Int) + 1 + 1 - 1 ≤ 0) by omega]
    rw [iterTimer, hstep]
    simp [iterTimer_expire ok st k]

/-- C3: a successful `cmd_momentary` from the inactive state starts the
countdown at 60 with one attempted Open dispatch; each of the first `k < 60`
ticks decrements the countdown by exactly one with no dispatch; the 60th
tick reaches zero, clears the flag, dispatches exactly one Close, and sets
the closed or failed status text according to the dispatch result — the
countdown is never left stuck above zero. -/
theorem c3_momentary_countdown (s0 : MomState) (okClose : Bool) (k : Nat)
    (h0 : s0.momentary_active = false) (hk : k < 60) :
    cmd_momentary true s0 =
      (⟨true, 60, "Momentary - closing in 60s"⟩, [commandPayload "open"]) ∧
    iterTimer okClose k ⟨true, 60, "Momentary - closing in 60s"⟩ =
      (⟨true, 60 - (k : Int), "Momentary - closing in 60s"⟩, []) ∧
    iterTimer okClose 60 ⟨true, 60, "Momentary - closing in 60s"⟩ =
      (⟨false, 0,
        if okClose then "Gate closed (momentary)"
        else "Failed to auto-close!"⟩,
       [commandPayload "close"]) := by
  refine ⟨by simp [cmd_momentary, h0], ?_, ?_⟩
  · exact iterTimer_active okClose "Momentary - closing in 60s" k 60
      (by exact_mod_cast hk)
  · have h := iterTimer_expire okClose "Momentary - closing in 60s" 59
    norm_num at h
    exact h

/-- Witness for C3: from a concrete idle state with a succeeding close,
59 ticks leave the countdown at 1 and the 60th tick closes. -/
theorem c3_momentary_countdown_witness :
    cmd_momentary true ⟨false, 0, "Ready"⟩ =
      (⟨true, 60, "Momentary - closing in 60s"⟩, [commandPayload "open"]) ∧
    iterTimer true 59 ⟨true, 60, "Momentary - closing in 60s"⟩ =
      (⟨true, 60 - ((59 : Nat) : Int), "Momentary - closing in 60s"⟩, []) ∧
    iterTimer true 60 ⟨true, 60, "Momentary - closing in 60s"⟩ =
      (⟨false, 0,
        if true then "Gate closed (momentary)"
        else "Failed to auto-close!"⟩,
       [commandPayload "close"]) :=
  c3_momentary_countdown ⟨false, 0, "Ready"⟩ true 59 rfl (by decide)

/-- Trimming keeps a list that is already within capacity. -/
theorem lastN_of_le (n : Nat) (l : List String) (h : l.length ≤ n) :
    lastN n l = l := by
  unfold lastN
  rw [Nat.sub_eq_zero_of_le h, List.drop_zero]

/-- Length of the last-`n` suffix. -/
theorem lastN_length (n : Nat) (l : List String) :
    (lastN n l).length = min n l.length := by
  unfold lastN
  rw [List.length_drop]
  omega

/-- `trim_log_file` always equals taking the last `MAX_LOG_LINES` lines. -/
theorem trim_eq_lastN (store : List String) :
    trim_log_file store = lastN MAX_LOG_LINES store := by
  unfold trim_log_file
  split
  · rfl
  · exact (lastN_of_le _ _ (by omega)).symm

/-- Trimming to the last `n`, appending, and trimming again is the same as
appending and trimming once. -/
theorem lastN_append_lastN (n : Nat) (l m : List String) :
    lastN n (lastN n l ++ m) = lastN n (l ++ m) := by
  rcases le_or_lt l.length n with h | h
  · rw [lastN_of_le n l h]
  · unfold lastN
    rw [← List.drop_append_of_le_length (by omega : l.length - n ≤ l.length),
      List.drop_drop]
    congr 1
    simp only [List.length_drop, List.length_append]
    omega

/-- Any sequence of `log_event` appends onto a within-capacity store leaves
exactly the last `MAX_LOG_LINES` of the full append sequence, in order. -/
theorem appendAll_eq : ∀ (es : List (String × String)) (store : List String),
    store.length ≤ MAX_LOG_LINES →
    appendAll store es =
      lastN MAX_LOG_LINES
        (store ++ es.map (fun p => format_log_line p.1 p.2))
  | [], store, h => by
    simp [appendAll, lastN_of_le _ _ h]
  | e :: es, store, h => by
    have h1 : log_event store e.1 e.2 =
        lastN MAX_LOG_LINES (store ++ [format_log_line e.1 e.2]) :=
      trim_eq_lastN _
    have h2 : (log_event store e.1 e.2).length ≤ MAX_LOG_LINES := by
      rw [h1, lastN_length]
      omega
    have ih := appendAll_eq es (log_event store e.1 e.2) h2
    calc appendAll store (e :: es)
        = appendAll (log_event store e.1 e.2) es := rfl
      _ = lastN MAX_LOG_LINES (log_event store e.1 e.2 ++
            es.map (fun p => format_log_line p.1 p.2)) := ih
      _ = lastN MAX_LOG_LINES
            (lastN MAX_LOG_LINES (store ++ [format_log_line e.1 e.2]) ++
              es.map (fun p => format_log_line p.1 p.2)) := by rw [h1]
      _ = lastN MAX_LOG_LINES
            ((store ++ [format_log_line e.1 e.2]) ++
              es.map (fun p => format_log_line p.1 p.2)) :=
        lastN_append_lastN _ _ _
      _ = lastN MAX_LOG_LINES
            (store ++ (e :: es).map (fun p => format_log_line p.1 p.2)) := by
        simp

/-- C8: the activity log is bounded and order-preserving.  After any
sequence of appends onto a within-capacity store the log holds at most 100
entries and equals the last-100 suffix of the full append sequence in
original order; appending 150 entries to an empty log leaves exactly the
last 100 appended entries oldest-first; and `get_log_lines` returns the
last `k` of them stripped and most-recent-first, never reordered. -/
theorem c8_log_bounded_ordered (store : List String)
    (es es150 : List (String × String)) (k : Nat)
    (hstore : store.length ≤ 100)
    (h150 : es150.length = 150)
    (hk0 : k ≠ 0) (hk : k ≤ 100) :
    (appendAll store es).length ≤ 100 ∧
    appendAll store es =
      lastN 100 (store ++ es.map (fun p => format_log_line p.1 p.2)) ∧
    appendAll [] es150 =
      (es150.map (fun p => format_log_line p.1 p.2)).drop 50 ∧
    (appendAll [] es150).length = 100 ∧
    get_log_lines k (some (appendAll [] es150)) =
      (((es150.map (fun p => format_log_line p.1 p.2)).drop (150 - k)).map
        pyStrip).reverse := by
  have hmax : MAX_LOG_LINES = 100 := rfl
  have hA := appendAll_eq es store (by rw [hmax]; exact hstore)
  have hB := appendAll_eq es150 [] (by simp [MAX_LOG_LINES])
  rw [hmax] at hA hB
  simp only [List.nil_append] at hB
  have hlen : (es150.map (fun p => format_log_line p.1 p.2)).length = 150 := by
    rw [List.length_map, h150]
  have hC : appendAll [] es150 =
      (es150.map (fun p => format_log_line p.1 p.2)).drop 50 := by
    rw [hB]
    unfold lastN
    rw [hlen]
  refine ⟨?_, hA, hC, ?_, ?_⟩
  · rw [hA, lastN_length]
    omega
  · rw [hC, List.length_drop, hlen]
  · rw [hC]
    simp only [get_log_lines, hk0, if_neg hk0]
    unfold lastN
    rw [List.length_drop, hlen, List.drop_drop]
    have heq : 50 + (150 - 50 - k) = 150 - k := by omega
    rw [heq]
    simp

/-- Witness for C8: one ordinary append plus 150 replicated appends onto an
empty store. -/
theorem c8_log_bounded_ordered_witness :
    (appendAll [] [("a", "b c")]).length ≤ 100 ∧
    appendAll [] [("a", "b c")] =
      lastN 100 ([] ++ [("a", "b c")].map
        (fun p => format_log_line p.1 p.2)) ∧
    appendAll [] (List.replicate 150 ("t", "u")) =
      ((List.replicate 150 ("t", "u")).map
        (fun p => format_log_line p.1 p.2)).drop 50 ∧
    (appendAll [] (List.replicate 150 ("t", "u"))).length = 100 ∧
    get_log_lines 3 (some (appendAll [] (List.replicate 150 ("t", "u")))) =
      ((((List.replicate 150 ("t", "u")).map
        (fun p => format_log_line p.1 p.2)).drop (150 - 3)).map
        pyStrip).reverse :=
  c8_log_bounded_ordered [] [("a", "b c")] (List.replicate 150 ("t", "u")) 3
    (by decide) (by simp) (by decide) (by decide)

/-- A line not containing the `+CMT:` marker is skipped by the scan. -/
theorem findCmt_cons_no_marker (p : String) (t : List String)
    (hp : containsSub "+CMT:" p = false) :
    findCmt (p :: t) = findCmt t := by
  cases t with
  | nil => rfl
  | cons l2 r => simp [findCmt, hp]

/-- A block of marker-free lines in front of the buffer does not change the
scan result. -/
theorem findCmt_append_no_marker (pre l : List String)
    (h : ∀ x ∈ pre, containsSub "+CMT:" x = false) :
    findCmt (pre ++ l) = findCmt l := by
  induction pre with
  | nil => rfl
  | cons p ps ih =>
    rw [List.cons_append,
      findCmt_cons_no_marker p (ps ++ l) (h p (by simp)),
      ih (fun x hx => h x (by simp [hx]))]

/-- A marker line followed by a line with non-empty strip yields that
stripped line. -/
theorem findCmt_fire (m b : String) (rest : List String)
    (hm : containsSub "+CMT:" m = true) (hb : pyStrip b ≠ "") :
    findCmt (m :: b :: rest) = some (pyStrip b) := by
  simp [findCmt, hm, hb]

/-- C7: when the buffered bytes split into lines as a marker-free block,
a `+CMT:` marker line, and a following message-body line with non-empty
strip, `check_incoming_sms` returns that following line stripped; when the
only `+CMT:` marker is the final line (no following line), it returns
`none`, silently ignoring the malformed frame. -/
theorem c7_incoming_parse (data data2 marker body marker2 : String)
    (pre rest pre2 : List String)
    (h1 : splitLines data = pre ++ marker :: body :: rest)
    (h2 : ∀ l ∈ pre, containsSub "+CMT:" l = false)
    (h3 : containsSub "+CMT:" marker = true)
    (h4 : pyStrip body ≠ "")
    (h5 : containsSub "+CMT:" data = true)
    (h6 : splitLines data2 = pre2 ++ [marker2])
    (h7 : ∀ l ∈ pre2, containsSub "+CMT:" l = false) :
    check_incoming_sms true true (PollDev.buffered data) =
      ⟨some (pyStrip body), true⟩ ∧
    check_incoming_sms true true (PollDev.buffered data2) =
      ⟨none, true⟩ := by
  constructor
  · simp [check_incoming_sms, h5, h1,
      findCmt_append_no_marker pre (marker :: body :: rest) h2,
      findCmt_fire marker body rest h3 h4]
  · rcases Bool.eq_false_or_eq_true (containsSub "+CMT:" data2) with h | h <;>
      simp [check_incoming_sms, h, h6,
        findCmt_append_no_marker pre2 [marker2] h7, findCmt]

/-- Witness for C7: the spec's own example frame yields `GATE OPEN`, and a
marker with no following line yields nothing. -/
theorem c7_incoming_parse_witness :
    check_incoming_sms true true
        (PollDev.buffered
          "+CMT: \"+15551234\",\"\",\"24/06/01\"\nGATE OPEN\nOK\n") =
      ⟨some "GATE OPEN", true⟩ ∧
    check_incoming_sms true true
        (PollDev.buffered "noise\n+CMT: \"+1555\"") =
      ⟨none, true⟩ :=
  c7_incoming_parse
    "+CMT: \"+15551234\",\"\",\"24/06/01\"\nGATE OPEN\nOK\n"
    "noise\n+CMT: \"+1555\""
    "+CMT: \"+15551234\",\"\",\"24/06/01\"" "GATE OPEN" "+CMT: \"+1555\""
    [] ["OK", ""] ["noise"]
    (by decide) (by decide) (by decide) (by decide) (by decide) (by decide)
    (by decide)

/-- C9 counterexample: with the backing store present but empty,
`get_log_lines` returns the empty sequence, not the single placeholder
entry the claim promises. -/
theorem c9_empty_store_counterexample :
    get_log_lines 8 (some []) = [] ∧
    get_log_lines 8 (some []) ≠ ["No log entries yet."] := by
  constructor <;> decide

/-- C9 amended: `get_log_lines` returns the single placeholder entry
exactly when the backing store is absent (`FileNotFoundError`); a present
but empty store yields the empty sequence. -/
theorem c9_placeholder_only_when_absent (k : Nat) :
    get_log_lines k none = ["No log entries yet."] ∧
    get_log_lines k (some []) = [] := by
  refine ⟨rfl, ?_⟩
  cases k <;> simp [get_log_lines, lastN]

end GateControl
